import Mathlib

/-!
Shallow embedding of the silhouette directory microservice
(github.com/tdeslauriers/silhouette) for checking its natural-language
specification.

The embedding covers:
* the per-call authorization gate (`internal/auth`): the unary interceptor,
  the policy triple, the handler-level `AuthorizeRequest` decision function
  and its string-safety helpers;
* the encrypted record store (`internal/storage` and
  `internal/storage/crypt`): field-level encrypt/decrypt fan-out with
  aggregated errors, blind-indexed profile/phone persistence, the
  profile/phone cross-reference rows, and the joined complete-profile fetch.

External collaborators (the carapace jwt verifier, the carapace
Indexer/Cryptor, the protobuf policy registry, the SQL backend) are modelled
as explicit function parameters or as in-memory lists of rows; the silhouette
code itself is translated statement by statement.

Go maps and channels are modelled as association lists and lists: a Go
`map[string]bool` becomes a membership function, a result channel becomes the
list of values sent on it (iteration/receive order, which Go randomises, is
fixed to program order - none of the checked claims depends on that order).
Go machine integers holding Unix seconds are modelled as `Int`.
-/

/-- Model of Go `database/sql.NullString`: a string plus a validity flag. -/
structure NullString where
  str : String
  valid : Bool
deriving Repr, DecidableEq

/-- Model of Go `unicode.IsSpace` (the White_Space property; for Latin-1 the
table is 0x09-0x0D, 0x20, 0x85, 0xA0). -/
def goIsSpace (c : Char) : Bool :=
  (0x09 ≤ c.toNat && c.toNat ≤ 0x0D) || c.toNat = 0x20 || c.toNat = 0x85 ||
    c.toNat = 0xA0 || c.toNat = 0x1680 ||
    (0x2000 ≤ c.toNat && c.toNat ≤ 0x200A) || c.toNat = 0x2028 ||
    c.toNat = 0x2029 || c.toNat = 0x202F || c.toNat = 0x205F ||
    c.toNat = 0x3000

/-- Model of Go `unicode.IsControl`: true exactly for the Latin-1 Cc
code points (0x00-0x1F and 0x7F-0x9F); runes above Latin-1 return false. -/
def goIsControl (c : Char) : Bool :=
  c.toNat ≤ 0x1F || (0x7F ≤ c.toNat && c.toNat ≤ 0x9F)

/-- Model of Go `strings.TrimSpace`: drop leading and trailing white space
(ranging over runes, as the Go implementation does). -/
def trimSpace (s : String) : String :=
  String.mk (((s.toList.dropWhile goIsSpace).reverse.dropWhile goIsSpace).reverse)

/-- Source `containsControlChars` from `internal/auth` (part_005 lines 579-586):
reports whether the string has a NUL or a control character other than
tab/LF/CR. -/
def containsControlChars (s : String) : Bool :=
  s.toList.any fun r =>
    r.toNat = 0 || (goIsControl r && r ≠ '\t' && r ≠ '\n' && r ≠ '\r')

/-- Source `isSafeForComparison` from `internal/auth` (part_005 lines 557-575):
non-empty, at most 1000 bytes (Go `len` counts bytes), and free of dangerous
control characters. -/
def isSafeForComparison (s : String) : Bool :=
  if s = "" then false
  else if 1000 < s.utf8ByteSize then false
  else if containsControlChars s then false
  else true

/-- Model of carapace `jwt.Claims` as consumed by this service: subject,
audience set, scope set, issued-at and expiry in Unix seconds.  The Go type
stores audiences and scopes as strings and exposes them through
`MapAudiences`/`MapScopes`; the model stores the parsed sets directly. -/
structure Claims where
  subject : String
  audiences : List String
  scopes : List String
  issuedAt : Int
  expires : Int
deriving Repr, DecidableEq

/-- Model of carapace `Claims.MapScopes`: the `map[string]bool` whose true
keys are exactly the token scopes. -/
def mapScopes (c : Claims) : String → Bool :=
  fun s => c.scopes.contains s

/-- Model of carapace `Claims.MapAudiences`: the `map[string]bool` whose true
keys are exactly the token audiences. -/
def mapAudiences (c : Claims) : String → Bool :=
  fun s => c.audiences.contains s

/-- Model of a parsed carapace `jwt.Token`: base string, signature and
claims. -/
structure Jwt where
  baseString : String
  signature : String
  claims : Claims
deriving Repr, DecidableEq

/-- Source `definitions.ServiceProfile` (part_003): this service's identity used as
the required audience. -/
def serviceProfile : String := "silhouette"

/-- Source `api.AuthConfig`: the per-method policy triple declared in the proto
schema layer. -/
structure AuthConfig where
  requiredScopes : List String
  selfAccessAllowed : Bool
  s2sOnlyAllowed : Bool
deriving Repr, DecidableEq

/-- Source `hasRequiredScopes` (part_005 lines 475-486): true when the user scope
map contains any one of the required scopes (OR semantics). -/
def hasRequiredScopes (requiredScopes : List String) (userScopes : String → Bool) : Bool :=
  requiredScopes.any userScopes

/-- Source `hasRequiredAudience` (part_005 lines 469-472): membership of the
required audience in the token audience map. -/
def hasRequiredAudience (requiredAudience : String) (userAudience : String → Bool) : Bool :=
  userAudience requiredAudience

/-- Source `auth.AuthContext` (part_005 lines 489-495): request-scoped auth state
attached to the call context.  `userClaims` is `none` exactly when the Go
`UserClaims` pointer is nil (service-only calls). -/
structure AuthContext where
  requiredScopes : List String
  svcClaims : Claims
  userClaims : Option Claims
  selfAccessAllowed : Bool
  s2sOnlyAllowed : Bool
deriving Repr, DecidableEq

/-- Source `auth.AuthorizeRequest` (part_005 lines 524-553).  The Go code starts by
calling `auth.UserClaims.MapScopes()` with no nil check; a nil `UserClaims`
pointer is a runtime panic, modelled as `none`.  Otherwise the result models
the returned `error`: `Except.ok` for a nil error (access granted). -/
def authorizeRequest (auth : AuthContext) (requestedUsername : String) :
    Option (Except String Unit) :=
  match auth.userClaims with
  | none => none
  | some user =>
    let userScopes := mapScopes user
    if hasRequiredScopes auth.requiredScopes userScopes then
      some (Except.ok ())
    else if !auth.selfAccessAllowed then
      some (Except.error "user does not have required scopes and self access is not allowed")
    else
      let requestedUsername := trimSpace requestedUsername
      if !isSafeForComparison requestedUsername then
        some (Except.error "requested username is not valid/safe for comparison")
      else if user.subject ≠ requestedUsername then
        some (Except.error "for self access, requested username does not match authorized user")
      else
        some (Except.ok ())

/-- gRPC status codes used by the interceptor and handlers. -/
inductive Code where
  | unauthenticated
  | permissionDenied
  | invalidArgument
  | notFound
  | alreadyExists
  | internal
deriving Repr, DecidableEq

/-- Outcome of one pass through the unary interceptor: either the handler is
invoked with an attached `AuthContext`, or the call is short-circuited with a
gRPC status error, or the Go code panics (slice index out of range / nil
dereference). -/
inductive UnaryResult where
  | handled (ctx : AuthContext)
  | err (code : Code) (msg : String)
  | panicked (msg : String)
deriving Repr, DecidableEq

/-- Inbound-call data consumed by the interceptor: whether incoming metadata
is present, the `service-authorization` and `authorization` metadata values
(Go `md.Get` returns a possibly empty slice), the full method name, and the
current Unix time (`time.Now().Unix()`). -/
structure UnaryInput where
  mdPresent : Bool
  svcTokens : List String
  accessTokens : List String
  fullMethod : String
  now : Int
deriving Repr, DecidableEq

/-- External collaborators of the interceptor: the policy lookup
(`getAuthConfig` over the proto registry), the s2s verifier
(`s2s.BuildAuthorized`), the user token parser (`jwt.BuildFromToken`) and the
user signature verifier (`iam.VerifySignature`). -/
structure UnaryEnv where
  getCfg : String → Except String AuthConfig
  buildAuthorized : List String → String → Except String Jwt
  buildFromToken : String → Except String Jwt
  verifySig : String → String → Except String Unit

/-- Source `authInterceptor.Unary` (part_005 lines 293-405), translated step by
step.  `svcToken[0]` on an empty slice is the Go panic modelled by
`UnaryResult.panicked`.  The issued-at guard models
`time.Now().Add(2*time.Second).Unix() < claims.IssuedAt` as
`now + 2 < issuedAt`. -/
def unary (env : UnaryEnv) (inp : UnaryInput) : UnaryResult :=
  if !inp.mdPresent then
    .err .unauthenticated "missing metadata"
  else
    match env.getCfg inp.fullMethod with
    | .error _ => .err .internal "failed to get auth config"
    | .ok authConfig =>
      match inp.svcTokens with
      | [] => .panicked "runtime error: index out of range"
      | svcToken0 :: _ =>
        match env.buildAuthorized authConfig.requiredScopes svcToken0 with
        | .error _ => .err .unauthenticated "unauthorized"
        | .ok authedSvc =>
          if !authConfig.s2sOnlyAllowed && inp.accessTokens.isEmpty then
            .err .unauthenticated "unauthorized"
          else if inp.accessTokens.isEmpty then
            if !authConfig.s2sOnlyAllowed then
              .err .unauthenticated "unauthorized"
            else
              .handled
                { requiredScopes := authConfig.requiredScopes
                  userClaims := none
                  svcClaims := authedSvc.claims
                  selfAccessAllowed := authConfig.selfAccessAllowed
                  s2sOnlyAllowed := false }
          else
            match env.buildFromToken (inp.accessTokens.headD "") with
            | .error _ => .err .unauthenticated "unauthorized"
            | .ok userJot =>
              match env.verifySig userJot.baseString userJot.signature with
              | .error _ => .err .unauthenticated "unauthorized"
              | .ok _ =>
                if inp.now + 2 < userJot.claims.issuedAt then
                  .err .unauthenticated "unauthorized"
                else if inp.now > userJot.claims.expires then
                  .err .unauthenticated "unauthorized"
                else if !hasRequiredAudience serviceProfile (mapAudiences userJot.claims) then
                  .err .permissionDenied "forbidden"
                else
                  .handled
                    { requiredScopes := authConfig.requiredScopes
                      userClaims := some userJot.claims
                      svcClaims := authedSvc.claims
                      selfAccessAllowed := authConfig.selfAccessAllowed
                      s2sOnlyAllowed := false }

/-- True when an `Except` holds a success value (a nil Go error). -/
def exOk {ε α : Type} (r : Except ε α) : Bool :=
  match r with
  | .ok _ => true
  | .error _ => false

/-- One fan-out unit for an optional `NullString` field (the repeated block
`if f.Valid { go cryptor.XField(name, f.String, ch, errCh, &wg) } else
{ ch <- "" }` of part_008/part_010): the pair is (value channel contents,
error channel contents), each a list of the values sent.  An error sent by
the external `EncryptField`/`DecryptField` is tagged with the field name it
was started for. -/
def optFieldUnit (fieldOp : String → String → Except String String)
    (name : String) (f : NullString) : List String × List (String × String) :=
  if f.valid then
    match fieldOp name f.str with
    | .ok v => ([v], [])
    | .error e => ([], [(name, e)])
  else ([""], [])

/-- One fan-out unit for a mandatory `NullString` field: an absent value is a
hard error pushed straight onto the error channel. -/
def reqFieldUnit (fieldOp : String → String → Except String String)
    (name : String) (f : NullString) (absentMsg : String) :
    List String × List (String × String) :=
  if f.valid then
    match fieldOp name f.str with
    | .ok v => ([v], [])
    | .error e => ([], [(name, e)])
  else ([], [(name, absentMsg)])

/-- One fan-out unit for a mandatory plain-string field, guarded in the
source by `len(v) > 0` (Go `len` counts bytes). -/
def reqStrUnit (fieldOp : String → String → Except String String)
    (name : String) (v : String) (absentMsg : String) :
    List String × List (String × String) :=
  if 0 < v.utf8ByteSize then
    match fieldOp name v with
    | .ok w => ([w], [])
    | .error e => ([], [(name, e)])
  else ([], [(name, absentMsg)])

/-- Source `sqlc.Profile` row (profile table columns written and read by the
modelled queries; the unused slug/slug_index columns are omitted). -/
structure Profile where
  uuid : String
  username : String
  userIndex : String
  nickName : NullString
  darkMode : Bool
  updatedAt : Int
  createdAt : Int
deriving Repr, DecidableEq

/-- Source `sqlc.Phone` row (phone table columns). -/
structure Phone where
  uuid : String
  slug : String
  slugIndex : String
  countryCode : NullString
  phoneNumber : NullString
  extension : NullString
  phoneType : NullString
  isCurrent : Bool
  updatedAt : Int
  createdAt : Int
deriving Repr, DecidableEq

/-- Source `sqlc.Address` row (address table columns). -/
structure Address where
  uuid : String
  slug : String
  slugIndex : String
  addressLine1 : NullString
  addressLine2 : NullString
  city : NullString
  state : NullString
  zip : NullString
  country : NullString
  isCurrent : Bool
  updatedAt : Int
  createdAt : Int
deriving Repr, DecidableEq

/-- Source `profileCryptor.EncryptProfile` (part_010 lines 43-98): one concurrent
unit per field (username mandatory, nickname optional), join, then either
return the aggregated error channel contents leaving the record as passed,
or commit both transformed values.  `fieldOp` models the external
`cryptor.EncryptField`. -/
def encryptProfile (fieldOp : String → String → Except String String)
    (profile : Profile) : Profile × Option (List (String × String)) :=
  let usernameU := reqStrUnit fieldOp "username" profile.username
    "username field is empty so it cannot be encrypted"
  let nicknameU := optFieldUnit fieldOp "nickname" profile.nickName
  let errCh := usernameU.2 ++ nicknameU.2
  if 0 < errCh.length then (profile, some errCh)
  else
    ({ profile with
        username := usernameU.1.headD ""
        nickName := ⟨nicknameU.1.headD "", true⟩ }, none)

/-- Source `profileCryptor.DecryptProfile` (part_010 lines 101-156): same fan-out
shape as `encryptProfile` with the decryption field operation. -/
def decryptProfile (fieldOp : String → String → Except String String)
    (profile : Profile) : Profile × Option (List (String × String)) :=
  let usernameU := reqStrUnit fieldOp "username" profile.username
    "username field is empty so it cannot be decrypted"
  let nicknameU := optFieldUnit fieldOp "nickname" profile.nickName
  let errCh := usernameU.2 ++ nicknameU.2
  if 0 < errCh.length then (profile, some errCh)
  else
    ({ profile with
        username := usernameU.1.headD ""
        nickName := ⟨nicknameU.1.headD "", true⟩ }, none)

/-- Source `phoneCryptor.EncryptPhone` (part_008 lines 37-124): country code and
extension optional, phone number and type mandatory; all four transformed
values are committed only when the error channel stays empty. -/
def encryptPhone (fieldOp : String → String → Except String String)
    (phone : Phone) : Phone × Option (List (String × String)) :=
  let countryCodeU := optFieldUnit fieldOp "country_code" phone.countryCode
  let phNumberU := reqFieldUnit fieldOp "phone_number" phone.phoneNumber
    "phone_number field is empty so it cannot be encrypted"
  let extU := optFieldUnit fieldOp "extension" phone.extension
  let phTypeU := reqFieldUnit fieldOp "type" phone.phoneType
    "phone_type field is empty so it cannot be encrypted"
  let errCh := countryCodeU.2 ++ phNumberU.2 ++ extU.2 ++ phTypeU.2
  if 0 < errCh.length then (phone, some errCh)
  else
    ({ phone with
        countryCode := ⟨countryCodeU.1.headD "", true⟩
        phoneNumber := ⟨phNumberU.1.headD "", true⟩
        extension := ⟨extU.1.headD "", true⟩
        phoneType := ⟨phTypeU.1.headD "", true⟩ }, none)

/-- Source `phoneCryptor.DecryptPhone` (part_008 lines 126-214): here the country
code is mandatory as well; only the extension stays optional. -/
def decryptPhone (fieldOp : String → String → Except String String)
    (phone : Phone) : Phone × Option (List (String × String)) :=
  let countryCodeU := reqFieldUnit fieldOp "country_code" phone.countryCode
    "country_code field is empty so it cannot be decrypted"
  let phNumberU := reqFieldUnit fieldOp "phone_number" phone.phoneNumber
    "phone_number field is empty so it cannot be decrypted"
  let extU := optFieldUnit fieldOp "extension" phone.extension
  let phTypeU := reqFieldUnit fieldOp "type" phone.phoneType
    "phone_type field is empty so it cannot be decrypted"
  let errCh := countryCodeU.2 ++ phNumberU.2 ++ extU.2 ++ phTypeU.2
  if 0 < errCh.length then (phone, some errCh)
  else
    ({ phone with
        countryCode := ⟨countryCodeU.1.headD "", true⟩
        phoneNumber := ⟨phNumberU.1.headD "", true⟩
        extension := ⟨extU.1.headD "", true⟩
        phoneType := ⟨phTypeU.1.headD "", true⟩ }, none)

/-- Fields of a phone record whose encryption by `encryptPhone` fails:
an optional field fails when present and rejected by the field operation, a
mandatory field also fails when absent.  This is the specification-side
characterization used to state the aggregated-error claim. -/
def phoneFailingFields (fieldOp : String → String → Except String String)
    (p : Phone) : List String :=
  (if p.countryCode.valid && !exOk (fieldOp "country_code" p.countryCode.str)
    then ["country_code"] else []) ++
  (if !p.phoneNumber.valid || !exOk (fieldOp "phone_number" p.phoneNumber.str)
    then ["phone_number"] else []) ++
  (if p.extension.valid && !exOk (fieldOp "extension" p.extension.str)
    then ["extension"] else []) ++
  (if !p.phoneType.valid || !exOk (fieldOp "type" p.phoneType.str)
    then ["type"] else [])

/-- Fields of a profile record whose encryption by `encryptProfile` fails. -/
def profileFailingFields (fieldOp : String → String → Except String String)
    (p : Profile) : List String :=
  (if p.username.utf8ByteSize = 0 || !exOk (fieldOp "username" p.username)
    then ["username"] else []) ++
  (if p.nickName.valid && !exOk (fieldOp "nickname" p.nickName.str)
    then ["nickname"] else [])

/-- profile_phone cross-reference row (schema table `profile_phone`; the
auto-increment surrogate id is omitted). -/
structure ProfilePhoneXref where
  profileUuid : String
  phoneUuid : String
  createdAt : Int
deriving Repr, DecidableEq

/-- In-memory model of the relational backend: the tables the modelled
queries touch, as lists of rows in insertion order. -/
structure Db where
  profiles : List Profile
  phones : List Phone
  profilePhone : List ProfilePhoneXref
deriving Repr, DecidableEq

/-- Source `profileStore.CreateProfile` (part_007 lines 73-104): generate a uuid if
absent (`newUuid` stands for the random draw), compute the blind index from
the plaintext username, encrypt the record, then insert the `SaveProfile`
row.  `idx` models the external `indexer.ObtainBlindIndex`. -/
def createProfile (idx : String → String)
    (fieldOp : String → String → Except String String) (newUuid : String)
    (db : Db) (profile : Profile) : Except (List (String × String)) Db :=
  let profile := if profile.uuid = "" then { profile with uuid := newUuid } else profile
  let index := idx profile.username
  match encryptProfile fieldOp profile with
  | (_, some errs) => .error errs
  | (enc, none) =>
      .ok { db with
              profiles := db.profiles ++
                [{ uuid := enc.uuid
                   username := enc.username
                   userIndex := index
                   nickName := enc.nickName
                   darkMode := enc.darkMode
                   updatedAt := enc.updatedAt
                   createdAt := enc.createdAt }] }

/-- Source `profileStore.GetProfile` (part_007 lines 107-126): blind index of the
queried username, `FindProfile` by index equality (first matching row),
decrypt, return; a missing row is the driver's no-rows error. -/
def getProfile (idx : String → String)
    (fieldOp : String → String → Except String String) (db : Db)
    (username : String) : Except String Profile :=
  let index := idx username
  match db.profiles.find? (fun r => r.userIndex == index) with
  | none => .error "sql: no rows in result set"
  | some row =>
    match decryptProfile fieldOp row with
    | (_, some _) => .error "profile record decryption errors"
    | (dec, none) => .ok dec

/-- Source `profileStore.UpdateProfile` (part_007 lines 277-291): encrypt the passed
record with `EncryptProfile`, then run the `UpdateProfile` statement setting
nick_name, dark_mode, updated_at on the row whose uuid matches. -/
def updateProfile (fieldOp : String → String → Except String String)
    (db : Db) (profile : Profile) : Except (List (String × String)) Db :=
  match encryptProfile fieldOp profile with
  | (_, some errs) => .error errs
  | (enc, none) =>
      .ok { db with
              profiles := db.profiles.map fun r =>
                if r.uuid == profile.uuid then
                  { r with nickName := enc.nickName, darkMode := enc.darkMode,
                           updatedAt := enc.updatedAt }
                else r }

/-- Source `phoneStore.CreatePhone` (internal/storage/phone.go lines 82-98):
encrypt, then insert the `SavePhone` row.  The Go code builds
`sqlc.SavePhoneParams` without its `Slug` and `SlugIndex` fields (the
generated struct has them, since the `SavePhone` query inserts both
columns), so Go zero-initializes them and the row is persisted with empty
slug and slug_index; the store's indexer is never consulted. -/
def createPhone (fieldOp : String → String → Except String String)
    (db : Db) (phone : Phone) : Except (List (String × String)) Db :=
  match encryptPhone fieldOp phone with
  | (_, some errs) => .error errs
  | (enc, none) =>
      .ok { db with
              phones := db.phones ++
                [{ uuid := enc.uuid
                   slug := ""
                   slugIndex := ""
                   countryCode := enc.countryCode
                   phoneNumber := enc.phoneNumber
                   extension := enc.extension
                   phoneType := enc.phoneType
                   isCurrent := enc.isCurrent
                   updatedAt := enc.updatedAt
                   createdAt := enc.createdAt }] }

/-- The `FindPhoneByUser` query: first phone row whose slug_index matches and
which is joined through profile_phone (on phone uuid) to a profile row whose
user_index matches. -/
def findPhoneByUser (db : Db) (slugIndex userIndex : String) : Option Phone :=
  db.phones.find? fun p =>
    p.slugIndex == slugIndex &&
      db.profilePhone.any fun pp =>
        pp.phoneUuid == p.uuid &&
          db.profiles.any fun pr =>
            pr.uuid == pp.profileUuid && pr.userIndex == userIndex

/-- Source `phoneStore.GetUsersPhone` (internal/storage/phone.go lines 50-79):
blind indexes of slug and username, `FindPhoneByUser`, decrypt. -/
def getUsersPhone (idx : String → String)
    (fieldOp : String → String → Except String String) (db : Db)
    (slug username : String) : Except String Phone :=
  let slugIndex := idx slug
  let userIndex := idx username
  match findPhoneByUser db slugIndex userIndex with
  | none => .error "sql: no rows in result set"
  | some phone =>
    match decryptPhone fieldOp phone with
    | (_, some _) => .error "phone record decryption errors"
    | (dec, none) => .ok dec

/-- Source `xrefStore.CreateProfilePhoneXref` (internal/storage/xref.go lines
49-57): insert a profile_phone row linking the two identifiers passed. -/
def createProfilePhoneXref (db : Db) (profileId phoneId : String)
    (now : Int) : Db :=
  { db with profilePhone := db.profilePhone ++
      [{ profileUuid := profileId, phoneUuid := phoneId, createdAt := now }] }

/-- Persistence tail of the `CreatePhone` handler
(internal/phone/create_phone.go lines 122-134): store the phone record, then
create the cross-reference — note the handler passes `record.Slug`, not
`record.Uuid`, as the phone identifier of the xref row. -/
def createPhoneHandlerPersist (fieldOp : String → String → Except String String)
    (db : Db) (profileUuid : String) (record : Phone) (now : Int) :
    Except (List (String × String)) Db :=
  match createPhone fieldOp db record with
  | .error e => .error e
  | .ok db1 => .ok (createProfilePhoneXref db1 profileUuid record.slug now)

/-- One row of the `FindProfileAddressPhoneRows` join (profile x address x
phone columns selected by the query). -/
structure JoinRow where
  profileUuid : String
  username : String
  nickName : NullString
  darkMode : Bool
  profileUpdatedAt : Int
  profileCreatedAt : Int
  addressUuid : String
  addressSlug : String
  addressLine1 : NullString
  addressLine2 : NullString
  city : NullString
  state : NullString
  zip : NullString
  addressCountry : NullString
  addressIsCurrent : Bool
  addressUpdatedAt : Int
  addressCreatedAt : Int
  phoneUuid : String
  phoneSlug : String
  phoneCountryCode : NullString
  phoneNumber : NullString
  extension : NullString
  phoneType : NullString
  phoneIsCurrent : Bool
  phoneUpdatedAt : Int
  phoneCreatedAt : Int
deriving Repr, DecidableEq

/-- The profile literal built from `records[0]` (part_007 lines 148-155);
the join does not select user_index, so the Go struct keeps its zero
value. -/
def profileOfRow (r : JoinRow) : Profile :=
  { uuid := r.profileUuid
    username := r.username
    userIndex := ""
    nickName := r.nickName
    darkMode := r.darkMode
    updatedAt := r.profileUpdatedAt
    createdAt := r.profileCreatedAt }

/-- The address literal entered into the dedup map (part_007 lines 167-179);
slug_index is not selected, so it keeps its zero value. -/
def addressOfRow (r : JoinRow) : Address :=
  { uuid := r.addressUuid
    slug := r.addressSlug
    slugIndex := ""
    addressLine1 := r.addressLine1
    addressLine2 := r.addressLine2
    city := r.city
    state := r.state
    zip := r.zip
    country := r.addressCountry
    isCurrent := r.addressIsCurrent
    updatedAt := r.addressUpdatedAt
    createdAt := r.addressCreatedAt }

/-- The phone literal entered into the dedup map (part_007 lines 184-194). -/
def phoneOfRow (r : JoinRow) : Phone :=
  { uuid := r.phoneUuid
    slug := r.phoneSlug
    slugIndex := ""
    countryCode := r.phoneCountryCode
    phoneNumber := r.phoneNumber
    extension := r.extension
    phoneType := r.phoneType
    isCurrent := r.phoneIsCurrent
    updatedAt := r.phoneUpdatedAt
    createdAt := r.phoneCreatedAt }

/-- Go `if _, ok := m[k]; !ok { m[k] = v }` over an association-list map:
first write wins; iteration order of the model is insertion order. -/
def insertIfAbsent {α : Type} (m : List (String × α)) (k : String) (v : α) :
    List (String × α) :=
  if m.any (fun kv => kv.1 == k) then m else m ++ [(k, v)]

/-- The identifier-keyed address dedup map of `GetCompleteProfile`
(part_007 lines 159-180). -/
def buildAddressMap (records : List JoinRow) : List (String × Address) :=
  records.foldl (fun m r => insertIfAbsent m r.addressUuid (addressOfRow r)) []

/-- The identifier-keyed phone dedup map of `GetCompleteProfile`
(part_007 lines 160-196). -/
def buildPhoneMap (records : List JoinRow) : List (String × Phone) :=
  records.foldl (fun m r => insertIfAbsent m r.phoneUuid (phoneOfRow r)) []

/-- Result model of `storage.CompleteProfile` (part_007 lines 19-23). -/
structure CompleteProfile where
  profile : Profile
  addresses : List Address
  phones : List Phone
deriving Repr, DecidableEq

/-- Source `profileStore.GetCompleteProfile` (part_007 lines 129-275) from the point
the join rows have been fetched: empty row set is an error; otherwise build
the profile from row 0, deduplicate addresses and phones into
identifier-keyed maps, run one decryption unit per unique record
(`decP`/`decA`/`decPh` model the three record cryptors the store holds),
join, and either fail with every collected error or assemble the complete
profile from the success channels. -/
def getCompleteProfile (decP : Profile → Except String Profile)
    (decA : Address → Except String Address)
    (decPh : Phone → Except String Phone)
    (records : List JoinRow) : Except (List String) CompleteProfile :=
  match records with
  | [] => .error ["no profile-address-phone record rows found"]
  | r0 :: _ =>
    let profile := profileOfRow r0
    let addressMap := buildAddressMap records
    let phoneMap := buildPhoneMap records
    let pRes := decP profile
    let aRes := (addressMap.map (fun kv => kv.2)).map decA
    let phRes := (phoneMap.map (fun kv => kv.2)).map decPh
    let errCh :=
      (match pRes with | .error e => [e] | .ok _ => []) ++
      (aRes.filterMap fun r => match r with | .error e => some e | .ok _ => none) ++
      (phRes.filterMap fun r => match r with | .error e => some e | .ok _ => none)
    if 0 < errCh.length then .error errCh
    else
      .ok { profile := (pRes.toOption.getD profile)
            addresses := aRes.filterMap Except.toOption
            phones := phRes.filterMap Except.toOption }

/-- One join row of the cartesian product for a given profile, address and
phone (what `FindProfileAddressPhoneRows` yields per xref pair). -/
def mkJoinRow (prof : Profile) (a : Address) (ph : Phone) : JoinRow :=
  { profileUuid := prof.uuid
    username := prof.username
    nickName := prof.nickName
    darkMode := prof.darkMode
    profileUpdatedAt := prof.updatedAt
    profileCreatedAt := prof.createdAt
    addressUuid := a.uuid
    addressSlug := a.slug
    addressLine1 := a.addressLine1
    addressLine2 := a.addressLine2
    city := a.city
    state := a.state
    zip := a.zip
    addressCountry := a.country
    addressIsCurrent := a.isCurrent
    addressUpdatedAt := a.updatedAt
    addressCreatedAt := a.createdAt
    phoneUuid := ph.uuid
    phoneSlug := ph.slug
    phoneCountryCode := ph.countryCode
    phoneNumber := ph.phoneNumber
    extension := ph.extension
    phoneType := ph.phoneType
    phoneIsCurrent := ph.isCurrent
    phoneUpdatedAt := ph.updatedAt
    phoneCreatedAt := ph.createdAt }

/-- The cartesian row set the join produces for one profile owning the given
addresses and phones. -/
def cartesianRows (prof : Profile) (addrs : List Address)
    (phones : List Phone) : List JoinRow :=
  (addrs.map fun a => phones.map fun ph => mkJoinRow prof a ph).flatten

/-- Concrete service-token claims used by the concrete scenarios below. -/
def svcClaims0 : Claims :=
  { subject := "caller-service"
    audiences := ["silhouette"]
    scopes := ["r:silhouette:profile:*"]
    issuedAt := 0
    expires := 1000 }

/-- Concrete parsed service token wrapping `svcClaims0`. -/
def svcJwt0 : Jwt := { baseString := "hdr.pld", signature := "sg", claims := svcClaims0 }

/-- Concrete user claims for subject alice with no scopes. -/
def aliceClaims : Claims :=
  { subject := "alice@example.com"
    audiences := ["silhouette"]
    scopes := []
    issuedAt := 0
    expires := 1000 }

/-- Concrete auth context: self-access allowed, user alice holding none of
the required scopes. -/
def ctxSelfAccess : AuthContext :=
  { requiredScopes := ["w:silhouette:profile:*"]
    svcClaims := svcClaims0
    userClaims := some aliceClaims
    selfAccessAllowed := true
    s2sOnlyAllowed := false }

/-- Concrete policy with self-access allowed. -/
def cfgSelf : AuthConfig :=
  { requiredScopes := ["w:silhouette:profile:*"]
    selfAccessAllowed := true
    s2sOnlyAllowed := false }

/-- Concrete interceptor environment resolving every method to `cfgSelf` and
accepting the service token. -/
def envOkPolicy : UnaryEnv :=
  { getCfg := fun _ => .ok cfgSelf
    buildAuthorized := fun _ _ => .ok svcJwt0
    buildFromToken := fun _ => .error "unreached"
    verifySig := fun _ _ => .ok () }

/-- Concrete inbound call whose metadata carries no service credential. -/
def inpMissingSvcToken : UnaryInput :=
  { mdPresent := true
    svcTokens := []
    accessTokens := ["user-token"]
    fullMethod := "/api.v1.Profiles/GetProfile"
    now := 50 }

/-- Concrete interceptor environment whose policy lookup fails. -/
def envNoPolicy : UnaryEnv :=
  { getCfg := fun _ => .error "method not found"
    buildAuthorized := fun _ _ => .ok svcJwt0
    buildFromToken := fun _ => .error "unreached"
    verifySig := fun _ _ => .ok () }

/-- Concrete inbound call for the unresolved-policy scenario. -/
def inpNoPolicy : UnaryInput :=
  { mdPresent := true
    svcTokens := ["svc-token"]
    accessTokens := ["user-token"]
    fullMethod := "/api.v1.Unknown/Method"
    now := 50 }

/-- Concrete policy allowing service-only access. -/
def cfgS2sOnly : AuthConfig :=
  { requiredScopes := ["r:silhouette:profile:*"]
    selfAccessAllowed := false
    s2sOnlyAllowed := true }

/-- Concrete interceptor environment resolving every method to the
service-only policy. -/
def envS2sOnly : UnaryEnv :=
  { getCfg := fun _ => .ok cfgS2sOnly
    buildAuthorized := fun _ _ => .ok svcJwt0
    buildFromToken := fun _ => .error "unreached"
    verifySig := fun _ _ => .ok () }

/-- Concrete inbound service-only call: service credential present, no user
credential. -/
def inpS2sOnly : UnaryInput :=
  { mdPresent := true
    svcTokens := ["svc-token"]
    accessTokens := []
    fullMethod := "/api.v1.Profiles/GetProfile"
    now := 50 }

/-- The auth context the interceptor attaches on the service-only path:
nil user claims. -/
def ctxS2sOnly : AuthContext :=
  { requiredScopes := ["r:silhouette:profile:*"]
    svcClaims := svcClaims0
    userClaims := none
    selfAccessAllowed := false
    s2sOnlyAllowed := false }

/-- Concrete user token issued 998 seconds in the future of `now = 0`. -/
def futureJwt : Jwt :=
  { baseString := "hdr.pld"
    signature := "sg"
    claims :=
      { subject := "alice@example.com"
        audiences := ["silhouette"]
        scopes := ["r:silhouette:profile:*"]
        issuedAt := 998
        expires := 1000 } }

/-- Concrete interceptor environment parsing every user token to
`futureJwt`. -/
def envFutureToken : UnaryEnv :=
  { getCfg := fun _ => .ok cfgSelf
    buildAuthorized := fun _ _ => .ok svcJwt0
    buildFromToken := fun _ => .ok futureJwt
    verifySig := fun _ _ => .ok () }

/-- Concrete inbound call carrying the future-dated user token at
`now = 0`. -/
def inpFutureToken : UnaryInput :=
  { mdPresent := true
    svcTokens := ["svc-token"]
    accessTokens := ["future-token"]
    fullMethod := "/api.v1.Profiles/GetProfile"
    now := 0 }

/-- Concrete field operation that rejects exactly the phone_number field. -/
def failOp : String → String → Except String String :=
  fun n v => if n = "phone_number" then .error "cipher failure" else .ok ("enc." ++ v)

/-- Concrete phone record with all mandatory fields present. -/
def phoneAllValid : Phone :=
  { uuid := "ph-1"
    slug := "3f2504e0-4f89-11d3-9a0c-0305e82c3301"
    slugIndex := ""
    countryCode := ⟨"+1", true⟩
    phoneNumber := ⟨"5551234567", true⟩
    extension := ⟨"", false⟩
    phoneType := ⟨"MOBILE", true⟩
    isCurrent := true
    updatedAt := 1
    createdAt := 1 }

/-- Concrete plaintext profile record for alice. -/
def profileAlice : Profile :=
  { uuid := "prof-1"
    username := "alice@example.com"
    userIndex := ""
    nickName := ⟨"ally", true⟩
    darkMode := false
    updatedAt := 7
    createdAt := 7 }

/-- The record the `UpdateProfile` handler builds when only the dark-mode
flag changes (update_profile.go lines 87-95): uuid, empty nickname, dark
mode, new timestamp — and no username, since the literal omits it. -/
def darkModeOnlyUpdate : Profile :=
  { uuid := "prof-1"
    username := ""
    userIndex := ""
    nickName := ⟨"", false⟩
    darkMode := true
    updatedAt := 99
    createdAt := 0 }

/-- Concrete injective blind indexer for evaluation scenarios. -/
def toyIdx : String → String := fun s => "idx." ++ s

/-- Concrete always-succeeding field encryption. -/
def toyEnc : String → String → Except String String :=
  fun _ v => .ok ("enc." ++ v)

/-- Concrete field decryption inverting `toyEnc`. -/
def toyDec : String → String → Except String String :=
  fun _ v => .ok (v.drop 4)

/-- Persisted profile row for alice under `toyIdx`/`toyEnc`. -/
def aliceRow : Profile :=
  { uuid := "prof-1"
    username := "enc.alice@example.com"
    userIndex := toyIdx "alice@example.com"
    nickName := ⟨"enc.ally", true⟩
    darkMode := false
    updatedAt := 7
    createdAt := 7 }

/-- Database holding only alice's profile row. -/
def dbWithAlice : Db := { profiles := [aliceRow], phones := [], profilePhone := [] }

/-- Empty database. -/
def emptyDb : Db := { profiles := [], phones := [], profilePhone := [] }

/-- Concrete profile owner for the complete-profile scenario (user_index is
not selected by the join, hence empty). -/
def profOwner : Profile :=
  { uuid := "prof-9"
    username := "enc.owner@example.com"
    userIndex := ""
    nickName := ⟨"enc.own", true⟩
    darkMode := true
    updatedAt := 3
    createdAt := 3 }

/-- First concrete address row of the complete-profile scenario. -/
def addrA : Address :=
  { uuid := "addr-1"
    slug := "slug-a1"
    slugIndex := ""
    addressLine1 := ⟨"enc.1 Main St", true⟩
    addressLine2 := ⟨"", true⟩
    city := ⟨"enc.Springfield", true⟩
    state := ⟨"enc.IL", true⟩
    zip := ⟨"enc.62701", true⟩
    country := ⟨"enc.USA", true⟩
    isCurrent := true
    updatedAt := 3
    createdAt := 3 }

/-- Second concrete address row of the complete-profile scenario. -/
def addrB : Address :=
  { addrA with uuid := "addr-2", slug := "slug-a2", isCurrent := false }

/-- First concrete phone row of the complete-profile scenario. -/
def phX : Phone :=
  { uuid := "ph-x"
    slug := "slug-px"
    slugIndex := ""
    countryCode := ⟨"enc.+1", true⟩
    phoneNumber := ⟨"enc.5550001111", true⟩
    extension := ⟨"", false⟩
    phoneType := ⟨"enc.MOBILE", true⟩
    isCurrent := true
    updatedAt := 3
    createdAt := 3 }

/-- Second concrete phone row of the complete-profile scenario. -/
def phY : Phone := { phX with uuid := "ph-y", slug := "slug-py" }

/-- Third concrete phone row of the complete-profile scenario. -/
def phZ : Phone := { phX with uuid := "ph-z", slug := "slug-pz" }

/-- Identity record decryptor over profiles (a concrete always-succeeding
cryptor for evaluation scenarios). -/
def idDecProfile : Profile → Except String Profile := fun p => .ok p

/-- Identity record decryptor over addresses. -/
def idDecAddress : Address → Except String Address := fun a => .ok a

/-- Identity record decryptor over phones. -/
def idDecPhone : Phone → Except String Phone := fun p => .ok p

theorem find?_append_right {α : Type} (l1 l2 : List α) (p : α → Bool)
    (h : ∀ a ∈ l1, p a = false) :
    (l1 ++ l2).find? p = l2.find? p := by
  induction l1 with
  | nil => simp
  | cons a l ih =>
    have ha := h a (by simp)
    simp only [List.cons_append, List.find?, ha]
    exact ih fun b hb => h b (by simp [hb])

/-- C6: for every inbound call (with transport metadata present, as gRPC
guarantees) whose method resolves to no authorization policy, the
interceptor short-circuits with an Internal error, so the handler is never
invoked: the call is denied, never allowed by default. -/
theorem unresolvedPolicyFailsClosed (env : UnaryEnv) (inp : UnaryInput) (e : String)
    (hmd : inp.mdPresent = true)
    (hcfg : env.getCfg inp.fullMethod = .error e) :
    unary env inp = .err .internal "failed to get auth config" := by
  simp [unary, hmd, hcfg]

theorem unresolvedPolicyFailsClosed_witness :
    unary envNoPolicy inpNoPolicy = .err .internal "failed to get auth config" :=
  unresolvedPolicyFailsClosed envNoPolicy inpNoPolicy "method not found" rfl rfl

/-- C2: evaluating the interceptor on a call whose metadata carries no
service credential: the Go code indexes `svcToken[0]` without a length
check, so instead of the Unauthenticated error the claim (and the spec
taxonomy) promises, the interceptor panics with an index-out-of-range
runtime error. -/
theorem missingServiceCredentialPanics :
    unary envOkPolicy inpMissingSvcToken = .panicked "runtime error: index out of range" ∧
    ∀ msg, unary envOkPolicy inpMissingSvcToken ≠ .err .unauthenticated msg := by
  constructor
  · rfl
  · intro msg h
    simp [unary, envOkPolicy, inpMissingSvcToken] at h

/-- C10: `AuthorizeRequest` is defined (returns a Go error value rather than
panicking on a nil dereference) exactly when the auth context carries user
claims; and the interceptor does admit service-only calls whose attached
context has nil user claims, so the handler-level check is total only for
calls that carried a user credential. -/
theorem authorizeRequestNeedsUserClaims :
    (∀ (auth : AuthContext) (ru : String),
        (authorizeRequest auth ru).isSome = auth.userClaims.isSome) ∧
    unary envS2sOnly inpS2sOnly = .handled ctxS2sOnly ∧
    ctxS2sOnly.userClaims = none := by
  refine ⟨fun auth ru => ?_, rfl, rfl⟩
  cases h : auth.userClaims with
  | none => simp [authorizeRequest, h]
  | some user =>
    simp only [authorizeRequest, h, Option.isSome_some]
    split
    · rfl
    · split
      · rfl
      · split
        · rfl
        · split <;> rfl

/-- C8: whenever the call carries a user credential whose parsed issued-at
exceeds the current time by more than the 2-second clock-skew allowance
(and a service credential is present, so the missing-credential panic is
not hit), the interceptor short-circuits with a status error before the
handler can run. -/
theorem futureIssuedAtRejected (env : UnaryEnv) (inp : UnaryInput)
    (tok : String) (rest : List String) (jot : Jwt) (s : String) (srest : List String)
    (hacc : inp.accessTokens = tok :: rest)
    (hparse : env.buildFromToken tok = .ok jot)
    (hiat : inp.now + 2 < jot.claims.issuedAt)
    (hsvc : inp.svcTokens = s :: srest) :
    ∃ c m, unary env inp = .err c m := by
  cases hmd : inp.mdPresent with
  | false => exact ⟨.unauthenticated, "missing metadata", by simp [unary, hmd]⟩
  | true =>
    cases hcfg : env.getCfg inp.fullMethod with
    | error e => exact ⟨.internal, "failed to get auth config", by simp [unary, hmd, hcfg]⟩
    | ok cfg =>
      cases hba : env.buildAuthorized cfg.requiredScopes s with
      | error e =>
        exact ⟨.unauthenticated, "unauthorized", by simp [unary, hmd, hcfg, hsvc, hba]⟩
      | ok svc =>
        cases hvs : env.verifySig jot.baseString jot.signature with
        | error e =>
          exact ⟨.unauthenticated, "unauthorized",
            by simp [unary, hmd, hcfg, hsvc, hba, hacc, hparse, hvs]⟩
        | ok u =>
          exact ⟨.unauthenticated, "unauthorized",
            by simp [unary, hmd, hcfg, hsvc, hba, hacc, hparse, hvs, hiat]⟩

theorem futureIssuedAtRejected_witness :
    ∃ c m, unary envFutureToken inpFutureToken = .err c m :=
  futureIssuedAtRejected envFutureToken inpFutureToken
    "future-token" [] futureJwt "svc-token" []
    rfl rfl (by decide) rfl

/-- C1 counterexample: with self-access allowed and no matching scope,
`AuthorizeRequest` grants access to the requested owner identifier
`" alice@example.com"` even though it differs byte-for-byte from the token
subject `"alice@example.com"`, because the code first applies
`strings.TrimSpace` to the requested identifier. -/
theorem selfAccessTrimCounterexample :
    hasRequiredScopes ctxSelfAccess.requiredScopes (mapScopes aliceClaims) = false ∧
    ctxSelfAccess.selfAccessAllowed = true ∧
    authorizeRequest ctxSelfAccess " alice@example.com" = some (Except.ok ()) ∧
    " alice@example.com" ≠ aliceClaims.subject := by
  refine ⟨rfl, rfl, ?_, by decide⟩
  rfl

/-- C1 (amended): with self-access allowed and no matching scope,
`AuthorizeRequest` grants access exactly when the requested owner
identifier, after trimming leading and trailing white space, passes the
safety check (non-empty, at most 1000 bytes, no control characters other
than tab/CR/LF) and equals the token subject byte-for-byte,
case-sensitively. -/
theorem selfAccessDecision (auth : AuthContext) (user : Claims) (ru : String)
    (huser : auth.userClaims = some user)
    (hscope : hasRequiredScopes auth.requiredScopes (mapScopes user) = false)
    (hself : auth.selfAccessAllowed = true) :
    authorizeRequest auth ru = some (Except.ok ()) ↔
      (isSafeForComparison (trimSpace ru) = true ∧ user.subject = trimSpace ru) := by
  simp only [authorizeRequest, huser, hscope, hself, Bool.not_true, Bool.false_eq_true,
    if_false]
  cases hsafe : isSafeForComparison (trimSpace ru) with
  | false => simp [hsafe]
  | true =>
    by_cases heq : user.subject = trimSpace ru
    · simp [hsafe, heq]
    · simp [hsafe, heq]

theorem selfAccessDecision_witness :
    isSafeForComparison (trimSpace "alice@example.com ") = true ∧
    aliceClaims.subject = trimSpace "alice@example.com " ∧
    authorizeRequest ctxSelfAccess "alice@example.com " = some (Except.ok ()) := by
  refine ⟨by decide, by decide, ?_⟩
  exact (selfAccessDecision ctxSelfAccess aliceClaims "alice@example.com "
    rfl (by decide) rfl).mpr ⟨by decide, by decide⟩

/-- C3: evaluating the store on the record the `UpdateProfile` handler
builds (uuid, nickname, dark mode, timestamp — no username): far from
re-encrypting only the mutated fields and persisting by primary key,
`UpdateProfile` first runs `EncryptProfile`, which unconditionally demands a
non-empty username, so every such update fails before any row is written —
for every field operation and every database state. -/
theorem profileUpdateWithoutUsernameFails
    (fieldOp : String → String → Except String String) (db : Db) :
    updateProfile fieldOp db darkModeOnlyUpdate =
      .error [("username", "username field is empty so it cannot be encrypted")] := by
  rfl

theorem optFieldUnit_errNames (o : String → String → Except String String)
    (n : String) (f : NullString) :
    (optFieldUnit o n f).2.map Prod.fst =
      (if f.valid && !exOk (o n f.str) then [n] else []) := by
  unfold optFieldUnit exOk
  cases hv : f.valid with
  | false => simp
  | true => cases h : o n f.str <;> simp [h]

theorem reqFieldUnit_errNames (o : String → String → Except String String)
    (n : String) (f : NullString) (absentMsg : String) :
    (reqFieldUnit o n f absentMsg).2.map Prod.fst =
      (if !f.valid || !exOk (o n f.str) then [n] else []) := by
  unfold reqFieldUnit exOk
  cases hv : f.valid with
  | false => simp
  | true => cases h : o n f.str <;> simp [h]

theorem reqStrUnit_errNames (o : String → String → Except String String)
    (n : String) (v : String) (absentMsg : String) :
    (reqStrUnit o n v absentMsg).2.map Prod.fst =
      (if v.utf8ByteSize = 0 || !exOk (o n v) then [n] else []) := by
  unfold reqStrUnit exOk
  by_cases hv : 0 < v.utf8ByteSize
  · have hnz : ¬ v.utf8ByteSize = 0 := Nat.pos_iff_ne_zero.mp hv
    cases h : o n v <;> simp [hv, hnz, h]
  · have hz : v.utf8ByteSize = 0 := Nat.eq_zero_of_not_pos hv
    simp [hv, hz]

theorem encryptPhone_errCh_map (fieldOp : String → String → Except String String)
    (p : Phone) :
    ((optFieldUnit fieldOp "country_code" p.countryCode).2 ++
     (reqFieldUnit fieldOp "phone_number" p.phoneNumber
        "phone_number field is empty so it cannot be encrypted").2 ++
     (optFieldUnit fieldOp "extension" p.extension).2 ++
     (reqFieldUnit fieldOp "type" p.phoneType
        "phone_type field is empty so it cannot be encrypted").2).map Prod.fst =
      phoneFailingFields fieldOp p := by
  simp only [List.map_append, optFieldUnit_errNames, reqFieldUnit_errNames,
    phoneFailingFields]

theorem encryptProfile_errCh_map (fieldOp : String → String → Except String String)
    (q : Profile) :
    ((reqStrUnit fieldOp "username" q.username
        "username field is empty so it cannot be encrypted").2 ++
     (optFieldUnit fieldOp "nickname" q.nickName).2).map Prod.fst =
      profileFailingFields fieldOp q := by
  simp only [List.map_append, reqStrUnit_errNames, optFieldUnit_errNames,
    profileFailingFields]

theorem encryptPhone_none_iff (fieldOp : String → String → Except String String)
    (p : Phone) :
    (encryptPhone fieldOp p).2 = none ↔ phoneFailingFields fieldOp p = [] := by
  have h := encryptPhone_errCh_map fieldOp p
  rw [← h]
  simp only [encryptPhone]
  split
  · next hlen =>
    have hne := List.length_pos.mp hlen
    constructor
    · intro hc; simp at hc
    · intro hm; exact absurd (List.map_eq_nil_iff.mp hm) hne
  · next hlen =>
    have hz := List.length_eq_zero.mp (Nat.eq_zero_of_not_pos hlen)
    simp only [List.append_eq_nil] at hz
    obtain ⟨⟨⟨h1, h2⟩, h3⟩, h4⟩ := hz
    simp [h1, h2, h3, h4]

theorem encryptPhone_some (fieldOp : String → String → Except String String)
    (p : Phone) (errs : List (String × String))
    (h : (encryptPhone fieldOp p).2 = some errs) :
    errs.map Prod.fst = phoneFailingFields fieldOp p ∧
      (encryptPhone fieldOp p).1 = p := by
  have hmap := encryptPhone_errCh_map fieldOp p
  rw [← hmap]
  revert h
  simp only [encryptPhone]
  split
  · next hlen => intro h; simp_all
  · next hlen => intro h; simp_all

theorem encryptProfile_none_iff (fieldOp : String → String → Except String String)
    (q : Profile) :
    (encryptProfile fieldOp q).2 = none ↔ profileFailingFields fieldOp q = [] := by
  have h := encryptProfile_errCh_map fieldOp q
  rw [← h]
  simp only [encryptProfile]
  split
  · next hlen =>
    have hne := List.length_pos.mp hlen
    constructor
    · intro hc; simp at hc
    · intro hm; exact absurd (List.map_eq_nil_iff.mp hm) hne
  · next hlen =>
    have hz := List.length_eq_zero.mp (Nat.eq_zero_of_not_pos hlen)
    simp only [List.append_eq_nil] at hz
    obtain ⟨h1, h2⟩ := hz
    simp [h1, h2]

theorem encryptProfile_some (fieldOp : String → String → Except String String)
    (q : Profile) (errs : List (String × String))
    (h : (encryptProfile fieldOp q).2 = some errs) :
    errs.map Prod.fst = profileFailingFields fieldOp q ∧
      (encryptProfile fieldOp q).1 = q := by
  have hmap := encryptProfile_errCh_map fieldOp q
  rw [← hmap]
  revert h
  simp only [encryptProfile]
  split
  · next hlen => intro h; simp_all
  · next hlen => intro h; simp_all

/-- C5: record-level encryption is all-or-nothing with one aggregated error.
For every field operation: the operation succeeds (no error value) exactly
when no required field transformation fails; and whenever it fails, the
returned aggregated error names exactly the failing fields and the record is
returned as it was passed — no partially transformed record exists.  Stated
for both cited record operations, `EncryptPhone` and `EncryptProfile`. -/
theorem encryptAggregatesAllFieldFailures
    (fieldOp : String → String → Except String String) (p : Phone) (q : Profile) :
    ((encryptPhone fieldOp p).2 = none ↔ phoneFailingFields fieldOp p = []) ∧
    (∀ errs, (encryptPhone fieldOp p).2 = some errs →
      errs.map Prod.fst = phoneFailingFields fieldOp p ∧
        (encryptPhone fieldOp p).1 = p) ∧
    ((encryptProfile fieldOp q).2 = none ↔ profileFailingFields fieldOp q = []) ∧
    (∀ errs, (encryptProfile fieldOp q).2 = some errs →
      errs.map Prod.fst = profileFailingFields fieldOp q ∧
        (encryptProfile fieldOp q).1 = q) :=
  ⟨encryptPhone_none_iff fieldOp p,
   fun errs h => encryptPhone_some fieldOp p errs h,
   encryptProfile_none_iff fieldOp q,
   fun errs h => encryptProfile_some fieldOp q errs h⟩

theorem encryptAggregatesAllFieldFailures_witness :
    (encryptPhone failOp phoneAllValid).2 = some [("phone_number", "cipher failure")] ∧
    [("phone_number", "cipher failure")].map Prod.fst =
      phoneFailingFields failOp phoneAllValid ∧
    (encryptPhone failOp phoneAllValid).1 = phoneAllValid := by
  have h := (encryptAggregatesAllFieldFailures failOp phoneAllValid profileAlice).2.1
    [("phone_number", "cipher failure")] (by rfl)
  exact ⟨by rfl, h.1, h.2⟩

/-- C4: evaluating the phone-creation pipeline at a concrete input.  The
handler persists a phone for alice (profile uuid prof-1) and then creates
the cross-reference; contrary to the claim, the persisted phone row's
slug_index column is empty - not the blind index of the slug, since
`CreatePhone` builds `SavePhoneParams` without its Slug/SlugIndex fields -
and the xref row carries the phone slug, not the phone uuid, so the
subsequent `GetUsersPhone` with the slug and the owner's username finds no
row at all. -/
theorem createPhoneLookupBroken :
    ∃ db2, createPhoneHandlerPersist toyEnc dbWithAlice "prof-1" phoneAllValid 1 = .ok db2 ∧
      (∀ ph ∈ db2.phones, ph.slugIndex ≠ toyIdx phoneAllValid.slug) ∧
      (∀ x ∈ db2.profilePhone, x.phoneUuid ≠ phoneAllValid.uuid) ∧
      getUsersPhone toyIdx toyDec db2 phoneAllValid.slug "alice@example.com" =
        .error "sql: no rows in result set" := by
  exact ⟨_, rfl, by decide, by decide, by rfl⟩

theorem encryptProfile_okOp (enc : String → String) (q : Profile)
    (h : 0 < q.username.utf8ByteSize) :
    encryptProfile (fun _ v => .ok (enc v)) q =
      ({ q with username := enc q.username,
                nickName := ⟨if q.nickName.valid then enc q.nickName.str else "", true⟩ },
       none) := by
  unfold encryptProfile reqStrUnit optFieldUnit
  cases hv : q.nickName.valid <;> simp [h, hv]

theorem decryptProfile_okOp (dec : String → String) (q : Profile)
    (h : 0 < q.username.utf8ByteSize) :
    decryptProfile (fun _ v => .ok (dec v)) q =
      ({ q with username := dec q.username,
                nickName := ⟨if q.nickName.valid then dec q.nickName.str else "", true⟩ },
       none) := by
  unfold decryptProfile reqStrUnit optFieldUnit
  cases hv : q.nickName.valid <;> simp [h, hv]

theorem createProfile_okOp (idx : String → String) (enc : String → String)
    (newUuid : String) (db : Db) (q : Profile)
    (h : 0 < q.username.utf8ByteSize) (hq : ¬ q.uuid = "") :
    createProfile idx (fun _ v => .ok (enc v)) newUuid db q =
      .ok { db with profiles := db.profiles ++
        [{ uuid := q.uuid
           username := enc q.username
           userIndex := idx q.username
           nickName := ⟨if q.nickName.valid then enc q.nickName.str else "", true⟩
           darkMode := q.darkMode
           updatedAt := q.updatedAt
           createdAt := q.createdAt }] } := by
  simp only [createProfile, if_neg hq]
  rw [encryptProfile_okOp enc q h]

/-- C9: creating a profile for username alice@example.com and then getting
it by that username: `Get` computes the same deterministic blind index,
fetches the inserted row by index equality, and returns a decrypted username
equal to alice@example.com, while the stored row's index column equals
`ObtainBlindIndex` of alice@example.com.  Hypotheses: field decryption
inverts field encryption, the ciphertext of the username is non-empty, the
record carries an identifier, and no earlier row collides on the blind
index. -/
theorem createThenGetProfileRoundTrip
    (idx enc dec : String → String) (db : Db) (p : Profile)
    (hrt : ∀ v, dec (enc v) = v)
    (huser : p.username = "alice@example.com")
    (huuid : ¬ p.uuid = "")
    (hcipher : 0 < (enc "alice@example.com").utf8ByteSize)
    (hfresh : ∀ r ∈ db.profiles, r.userIndex ≠ idx "alice@example.com") :
    ∃ db2, createProfile idx (fun _ v => .ok (enc v)) "gen-uuid" db p = .ok db2 ∧
      (∃ row ∈ db2.profiles, row.userIndex = idx "alice@example.com") ∧
      ∃ got, getProfile idx (fun _ v => .ok (dec v)) db2 "alice@example.com" = .ok got ∧
        got.username = "alice@example.com" := by
  have hpos : 0 < p.username.utf8ByteSize := by rw [huser]; decide
  have hcreate := createProfile_okOp idx enc "gen-uuid" db p hpos huuid
  rw [huser] at hcreate
  refine ⟨_, hcreate, ⟨_, List.mem_append_right _ (List.mem_singleton_self _), rfl⟩, ?_⟩
  have hpred : ∀ r ∈ db.profiles, (fun r => r.userIndex == idx "alice@example.com") r = false := by
    intro r hr
    exact beq_eq_false_iff_ne.mpr (hfresh r hr)
  simp only [getProfile]
  rw [find?_append_right db.profiles _ _ hpred]
  simp only [List.find?, beq_self_eq_true]
  rw [decryptProfile_okOp dec _ hcipher]
  exact ⟨_, rfl, hrt "alice@example.com"⟩

theorem createThenGetProfileRoundTrip_witness :
    ∃ db2, createProfile toyIdx (fun _ v => .ok (id v)) "gen-uuid" emptyDb profileAlice = .ok db2 ∧
      (∃ row ∈ db2.profiles, row.userIndex = toyIdx "alice@example.com") ∧
      ∃ got, getProfile toyIdx (fun _ v => .ok (id v)) db2 "alice@example.com" = .ok got ∧
        got.username = "alice@example.com" :=
  createThenGetProfileRoundTrip toyIdx id id emptyDb profileAlice
    (fun _ => rfl) rfl (by decide) (by decide) (by intro r hr; simp [emptyDb] at hr)

theorem rowAddressUuid (prof : Profile) (a : Address) (ph : Phone) :
    (mkJoinRow prof a ph).addressUuid = a.uuid := rfl

theorem rowPhoneUuid (prof : Profile) (a : Address) (ph : Phone) :
    (mkJoinRow prof a ph).phoneUuid = ph.uuid := rfl

theorem profileOfRow_mk (prof : Profile) (a : Address) (ph : Phone)
    (h : prof.userIndex = "") :
    profileOfRow (mkJoinRow prof a ph) = prof := by
  cases prof
  simp_all [profileOfRow, mkJoinRow]

theorem addressOfRow_mk (prof : Profile) (a : Address) (ph : Phone)
    (h : a.slugIndex = "") :
    addressOfRow (mkJoinRow prof a ph) = a := by
  cases a
  simp_all [addressOfRow, mkJoinRow]

theorem phoneOfRow_mk (prof : Profile) (a : Address) (ph : Phone)
    (h : ph.slugIndex = "") :
    phoneOfRow (mkJoinRow prof a ph) = ph := by
  cases ph
  simp_all [phoneOfRow, mkJoinRow]

/-- C7: for a user owning 2 addresses and 3 phones whose joined fetch yields
the 6-row cartesian product, `GetCompleteProfile` deduplicates the rows into
identifier-keyed maps of sizes 2 and 3, decrypts each unique address and
phone exactly once (the result lists are exactly one decryption per unique
record), and returns exactly 2 decrypted addresses and 3 decrypted phones.
The slug_index/user_index hypotheses record that the join selects neither
column, so the Go literals keep them zero-valued. -/
theorem getCompleteProfileDedups
    (decP : Profile → Except String Profile)
    (decA : Address → Except String Address)
    (decPh : Phone → Except String Phone)
    (prof dp : Profile) (a1 a2 da1 da2 : Address) (p1 p2 p3 dp1 dp2 dp3 : Phone)
    (ha : a1.uuid ≠ a2.uuid)
    (hp12 : p1.uuid ≠ p2.uuid) (hp13 : p1.uuid ≠ p3.uuid) (hp23 : p2.uuid ≠ p3.uuid)
    (hprof : prof.userIndex = "")
    (ha1s : a1.slugIndex = "") (ha2s : a2.slugIndex = "")
    (hp1s : p1.slugIndex = "") (hp2s : p2.slugIndex = "") (hp3s : p3.slugIndex = "")
    (hdP : decP prof = .ok dp)
    (hdA1 : decA a1 = .ok da1) (hdA2 : decA a2 = .ok da2)
    (hdP1 : decPh p1 = .ok dp1) (hdP2 : decPh p2 = .ok dp2) (hdP3 : decPh p3 = .ok dp3) :
    getCompleteProfile decP decA decPh (cartesianRows prof [a1, a2] [p1, p2, p3]) =
      .ok { profile := dp, addresses := [da1, da2], phones := [dp1, dp2, dp3] } ∧
    (buildAddressMap (cartesianRows prof [a1, a2] [p1, p2, p3])).length = 2 ∧
    (buildPhoneMap (cartesianRows prof [a1, a2] [p1, p2, p3])).length = 3 := by
  have hP := profileOfRow_mk prof a1 p1 hprof
  have hA1 := addressOfRow_mk prof a1 p1 ha1s
  have hA2 := addressOfRow_mk prof a2 p1 ha2s
  have hPh1 := phoneOfRow_mk prof a1 p1 hp1s
  have hPh2 := phoneOfRow_mk prof a1 p2 hp2s
  have hPh3 := phoneOfRow_mk prof a1 p3 hp3s
  refine ⟨?_, ?_, ?_⟩ <;>
    simp [getCompleteProfile, cartesianRows, buildAddressMap, buildPhoneMap,
      insertIfAbsent, rowAddressUuid, rowPhoneUuid, hP, hA1, hA2, hPh1, hPh2, hPh3,
      hdP, hdA1, hdA2, hdP1, hdP2, hdP3, ha, hp12, hp13, hp23,
      Except.toOption, List.filterMap_cons, List.filterMap_nil, Option.getD]

theorem getCompleteProfileDedups_witness :
    getCompleteProfile idDecProfile idDecAddress idDecPhone
        (cartesianRows profOwner [addrA, addrB] [phX, phY, phZ]) =
      .ok { profile := profOwner, addresses := [addrA, addrB],
            phones := [phX, phY, phZ] } ∧
    (buildAddressMap (cartesianRows profOwner [addrA, addrB] [phX, phY, phZ])).length = 2 ∧
    (buildPhoneMap (cartesianRows profOwner [addrA, addrB] [phX, phY, phZ])).length = 3 :=
  getCompleteProfileDedups idDecProfile idDecAddress idDecPhone
    profOwner profOwner addrA addrB addrA addrB phX phY phZ phX phY phZ
    (by decide) (by decide) (by decide) (by decide)
    rfl rfl rfl rfl rfl rfl rfl rfl rfl rfl rfl rfl
